import Mathlib

/-!
Shallow embedding of the Near-Earth-Object query engine
(src/starter/models.py, src/starter/database.py, src/starter/search.py).

Python machine floats only ever arise here by parsing decimal literals from
the csv rows or filter strings, and are then only compared with a < b, a = b,
a <= b; both operations are exact on such decimals, so numeric fields are
embedded as exact decimals: a PyFloat is a pair of an integer mantissa and a
decimal exponent, denoting num / 10 ^ exp, compared by cross multiplication.
Strings are Lean strings; Python dicts built by insertion are association
lists in insertion order; fallible operations return `Except Err`.
-/

set_option maxRecDepth 8000

deriving instance DecidableEq for Except

/-- Runtime failures the Python code can raise; the source defines no custom
exception type, so these are the builtin exception kinds that actually occur. -/
inductive Err where
  | keyError
  | valueError
  | typeError
  | attributeError
  | indexError
deriving DecidableEq

/-- 10 ^ n as an integer. -/
def pow10 : Nat → Int
  | 0 => 1
  | n + 1 => 10 * pow10 n

/-- The value num / 10 ^ exp: the exact form of every float this program
ever builds (they all come from `float(..)` on decimal literals). -/
structure PyFloat where
  num : Int
  exp : Nat
deriving DecidableEq

/-- Value comparison a < b, by cross multiplication. -/
def pfLt (a b : PyFloat) : Bool :=
  decide (a.num * pow10 b.exp < b.num * pow10 a.exp)

/-- Value comparison a = b, by cross multiplication. -/
def pfEq (a b : PyFloat) : Bool :=
  decide (a.num * pow10 b.exp = b.num * pow10 a.exp)

/-- Value comparison a <= b, by cross multiplication. -/
def pfLe (a b : PyFloat) : Bool :=
  decide (a.num * pow10 b.exp ≤ b.num * pow10 a.exp)

/-- models.py lines 28..42: OrbitPath holds the owning subject name, the miss
distance and the full close-approach date string. -/
structure OrbitPath where
  neo_name : String
  miss_distance_kilometers : PyFloat
  close_approach_date : String
deriving DecidableEq

/-- models.py lines 1..17: NearEarthObject holds id, name, minimum diameter,
the hazard flag and the list of owned orbits. -/
structure NearEarthObject where
  id : String
  name : String
  diameter_min_km : PyFloat
  is_potentially_hazardous_asteroid : Bool
  orbits : List OrbitPath
deriving DecidableEq

/-- models.py lines 18..26: update_orbits appends one orbit to the list. -/
def NearEarthObject.update_orbits (neo : NearEarthObject) (orbit : OrbitPath) : NearEarthObject :=
  { neo with orbits := neo.orbits ++ [orbit] }

/-- One decoded csv row: a mapping from field name to string value
(csv.DictReader produces one dict per row). -/
def Row : Type := List (String × String)

/-- First-match association-list lookup, the embedding of Python dict lookup. -/
def listLookup {α : Type} (m : List (String × α)) (k : String) : Option α :=
  match m with
  | [] => none
  | (k2, v) :: rest => if k2 = k then some v else listLookup rest k

/-- Python `row[key]`: dict subscription, KeyError when the key is absent. -/
def rowGet (r : Row) (k : String) : Except Err String :=
  match listLookup r k with
  | some v => Except.ok v
  | none => Except.error Err.keyError

/-- Split a character list at every occurrence of the separator; the result
always has at least one (possibly empty) part, like Python str.split. -/
def splitChar (c : Char) : List Char → List (List Char)
  | [] => [[]]
  | a :: rest =>
    let r := splitChar c rest
    if a = c then [] :: r
    else
      match r with
      | [] => [[a]]
      | h :: t => (a :: h) :: t

/-- Python `s.split(sep)` for the one-character separators used here. -/
def splitStr (s : String) (c : Char) : List String :=
  (splitChar c s.data).map String.mk

/-- Value of a digit string, most significant digit first. -/
def digitsVal (l : List Char) : Nat :=
  l.foldl (fun a c => 10 * a + (c.toNat - 48)) 0

/-- Negate when the sign flag is set. -/
def intSign (neg : Bool) (n : Nat) : Int :=
  if neg then -(n : Int) else (n : Int)

/-- Python `float(s)` on the decimal literals this dataset uses: optional minus
sign, digits, optional fractional part (the exponent and special forms that
`float` also accepts never occur in this data model). `none` is ValueError. -/
def parseFloat (s : String) : Option PyFloat :=
  let cs := s.data
  let neg := cs.head? = some '-'
  let rest := if cs.head? = some '-' then cs.tail else cs
  let ip := rest.takeWhile Char.isDigit
  let rest2 := rest.dropWhile Char.isDigit
  match rest2 with
  | [] => if ip = [] then none else some { num := intSign neg (digitsVal ip), exp := 0 }
  | c :: frac =>
    if c = '.' ∧ (ip ≠ [] ∨ frac ≠ []) ∧ frac.all Char.isDigit then
      some { num := intSign neg (digitsVal (ip ++ frac)), exp := frac.length }
    else none

/-- `float(s)` with the ValueError made explicit. -/
def parseFloatE (s : String) : Except Err PyFloat :=
  match parseFloat s with
  | some q => Except.ok q
  | none => Except.error Err.valueError

/-- Python `int(s)` on the digit strings produced by splitting a date
(signs and surrounding whitespace never occur there). -/
def parseNat (s : String) : Except Err Nat :=
  if s.data ≠ [] ∧ s.data.all Char.isDigit then Except.ok (digitsVal s.data)
  else Except.error Err.valueError

/-- database.py lines 5..22: the record store. The filename handling is I/O
and is external to the embedding; the two collections are kept.
NearEarthObjects is the dict from coarse orbit date to the list of
NearEarthObject instances recorded on that date, in insertion order. -/
structure NEODatabase where
  NearEarthObjects : List (String × List NearEarthObject)
  OrbitPaths : List OrbitPath
deriving DecidableEq

/-- database.py lines 68..73: `self.NearEarthObjects[orb_date] += [neoObject]`
when the date key exists, else a fresh singleton entry; dict insertion order. -/
def dictAppend (m : List (String × List NearEarthObject)) (k : String)
    (v : NearEarthObject) : List (String × List NearEarthObject) :=
  match m with
  | [] => [(k, [v])]
  | (k2, l) :: rest =>
    if k2 = k then (k2, l ++ [v]) :: rest
    else (k2, l) :: dictAppend rest k v

/-- Python `self.db.NearEarthObjects[key]`: KeyError when the date is absent. -/
def dictGet (m : List (String × List NearEarthObject)) (k : String) :
    Except Err (List NearEarthObject) :=
  match listLookup m k with
  | some l => Except.ok l
  | none => Except.error Err.keyError

/-- database.py lines 43..73: the body of the row loop of load_data. Field
accesses and float conversions happen in source order; a fresh NearEarthObject
is constructed for every row, its orbits list starts empty and receives exactly
the one orbit of this row via update_orbits, and the instance is appended to
the date-keyed dict. No name-keyed dict is ever built. -/
def loadRow (db : NEODatabase) (row : Row) : Except Err NEODatabase := do
  let orb_date ← rowGet row "close_approach_date"
  let _neo_name ← rowGet row "name"
  let nid ← rowGet row "neo_reference_id"
  let nname ← rowGet row "name"
  let ndiamStr ← rowGet row "estimated_diameter_min_kilometers"
  let ndiam ← parseFloatE ndiamStr
  let nhaz ← rowGet row "is_potentially_hazardous_asteroid"
  let oname ← rowGet row "name"
  let odistStr ← rowGet row "miss_distance_kilometers"
  let odist ← parseFloatE odistStr
  let odate ← rowGet row "close_approach_date_full"
  let orbitPath : OrbitPath := { neo_name := oname, miss_distance_kilometers := odist, close_approach_date := odate }
  let db1 : NEODatabase := { db with OrbitPaths := db.OrbitPaths ++ [orbitPath] }
  let neoObject : NearEarthObject :=
    { id := nid, name := nname, diameter_min_km := ndiam,
      is_potentially_hazardous_asteroid := (nhaz = "True"), orbits := [] }
  let neoObject := neoObject.update_orbits orbitPath
  Except.ok { db1 with NearEarthObjects := dictAppend db1.NearEarthObjects orb_date neoObject }

/-- database.py lines 24..75: load_data over an already-decoded row sequence,
starting from the freshly initialised empty store of __init__. -/
def load_data (rows : List Row) : Except Err NEODatabase :=
  rows.foldlM loadRow { NearEarthObjects := [], OrbitPaths := [] }

/-- All NearEarthObject instances stored in the date-keyed mapping, in
bucket order. Observation function used by the theorems. -/
def storedNEOs (db : NEODatabase) : List NearEarthObject :=
  db.NearEarthObjects.foldr (fun p acc => p.2 ++ acc) []

/-- Leap year rule of the proleptic Gregorian calendar used by datetime. -/
def isLeap (y : Nat) : Bool :=
  (y % 4 = 0 && y % 100 != 0) || y % 400 = 0

/-- Month lengths for a given leap flag. -/
def monthDays (leap : Bool) : List Nat :=
  [31, if leap then 29 else 28, 31, 30, 31, 30, 31, 31, 30, 31, 30, 31]

/-- Days in month m of year y (m counted from 1). -/
def daysInMonth (y m : Nat) : Nat :=
  (monthDays (isLeap y)).getD (m - 1) 0

/-- Days of year y that precede month m. -/
def daysBeforeMonth (y m : Nat) : Nat :=
  ((monthDays (isLeap y)).take (m - 1)).foldl (fun a b => a + b) 0

/-- A datetime.date value: year, month, day, already validated. -/
structure PyDate where
  y : Nat
  m : Nat
  d : Nat
deriving DecidableEq

/-- Proleptic Gregorian ordinal of a date, as datetime.date.toordinal. -/
def toOrdinal (dt : PyDate) : Nat :=
  365 * (dt.y - 1) + ((dt.y - 1) / 4 - (dt.y - 1) / 100 + (dt.y - 1) / 400)
    + daysBeforeMonth dt.y dt.m + dt.d

/-- datetime.date(y, m, d): ValueError unless the triple is a calendar date
within datetime's year range. -/
def mkDate (y m d : Nat) : Except Err PyDate :=
  if 1 ≤ y ∧ y ≤ 9999 ∧ 1 ≤ m ∧ m ≤ 12 ∧ 1 ≤ d ∧ d ≤ daysInMonth y m then
    Except.ok { y := y, m := m, d := d }
  else Except.error Err.valueError

/-- Calendar successor of a date, rolling over month and year ends. -/
def nextDay (dt : PyDate) : PyDate :=
  if dt.d < daysInMonth dt.y dt.m then { dt with d := dt.d + 1 }
  else if dt.m < 12 then { y := dt.y, m := dt.m + 1, d := 1 }
  else { y := dt.y + 1, m := 1, d := 1 }

/-- `start + datetime.timedelta(days := n)` for n ≥ 0, as n successor steps. -/
def addDays (dt : PyDate) : Nat → PyDate
  | 0 => dt
  | n + 1 => nextDay (addDays dt n)

/-- search.py line 209: the daterange list comprehension,
`[start + timedelta(days=x) for x in range(0, (end - start).days)]`. -/
def daterange (sd ed : PyDate) : List PyDate :=
  (List.range ((toOrdinal ed : Int) - (toOrdinal sd : Int)).toNat).map (addDays sd)

/-- Left-pad a numeral with zeros to the given width. -/
def padNat (w n : Nat) : String :=
  let s := toString n
  String.mk (List.replicate (w - s.length) '0') ++ s

/-- strftime("%Y-%m-%d") on the four-digit years this dataset uses. -/
def formatDate (dt : PyDate) : String :=
  padNat 4 dt.y ++ "-" ++ padNat 2 dt.m ++ "-" ++ padNat 2 dt.d

/-- search.py lines 204..207: `a, b, c = tuple(s.split("-"))` followed by the
int conversions; ValueError when the split does not give exactly three parts
or a part is not a numeral. -/
def parseYMD (s : String) : Except Err (Nat × Nat × Nat) := do
  match splitStr s '-' with
  | [a, b, c] =>
    let yv ← parseNat a
    let mv ← parseNat b
    let dv ← parseNat c
    Except.ok (yv, mv, dv)
  | _ => Except.error Err.valueError

/-- search.py line 207: `datetime.date(int(a), int(b), int(c))` on the split
start string. -/
def parseStartDate (s : String) : Except Err PyDate := do
  let (yv, mv, dv) ← parseYMD s
  mkDate yv mv dv

/-- search.py line 208: `datetime.date(int(d), int(e), int(f) + 1)` on the
split end string; the source adds 1 to the day inside the constructor to make
the range end-inclusive. -/
def parseEndBound (s : String) : Except Err PyDate := do
  let (yv, mv, dv) ← parseYMD s
  mkDate yv mv (dv + 1)

/-- search.py lines 204..212: the coarse date keys that between_search visits,
in order: parse both bounds, build the daterange, format each date. -/
def betweenDatesKeys (s e : String) : Except Err (List String) := do
  let sd ← parseStartDate s
  let ed ← parseEndBound e
  Except.ok ((daterange sd ed).map formatDate)

/-- Keep the first instance of each subject name, preserving order: the
embedding of the insert-if-absent dict that both searches build, whose
values() come out in first-insertion order. -/
def dedupGo (seen : List String) : List NearEarthObject → List NearEarthObject
  | [] => []
  | n :: rest =>
    if n.name ∈ seen then dedupGo seen rest
    else n :: dedupGo (n.name :: seen) rest

/-- First occurrence of each name wins, order preserved. -/
def dedupByName (l : List NearEarthObject) : List NearEarthObject :=
  dedupGo [] l

/-- Concatenate the per-date buckets in visit order. -/
def concatAll (l : List (List NearEarthObject)) : List NearEarthObject :=
  l.foldr (fun a b => a ++ b) []

/-- search.py lines 178..191: equals_search subscripts the date dict directly
(KeyError when absent), then deduplicates by name keeping first occurrences. -/
def equals_search (db : NEODatabase) (date_search : String) :
    Except Err (List NearEarthObject) := do
  let bucket ← dictGet db.NearEarthObjects date_search
  Except.ok (dedupByName bucket)

/-- search.py lines 194..217: between_search. The values slot holds the
[start, end] pair; a missing bound is None and `None.split` raises
AttributeError. Every visited date key is subscripted directly (KeyError when
absent); one name-keyed dict deduplicates across the whole range, which equals
deduplicating the concatenation of the buckets in visit order. -/
def between_search (db : NEODatabase) (os oe : Option String) :
    Except Err (List NearEarthObject) :=
  match os, oe with
  | some s, some e => do
    let keys ← betweenDatesKeys s e
    let buckets ← keys.mapM (fun k => dictGet db.NearEarthObjects k)
    Except.ok (dedupByName (concatAll buckets))
  | _, _ => Except.error Err.attributeError

/-- The two classes used as routing tags: search.py stores the class objects
NearEarthObject and OrbitPath in Query.ReturnObjects and in Filter.object. -/
inductive ObjKind where
  | NEO
  | ORB
deriving DecidableEq

/-- search.py lines 71..75: Filter.Options, filter name to model property. -/
def FilterOptions : List (String × String) :=
  [("diameter", "diameter_min_km"),
   ("is_hazardous", "is_hazardous"),
   ("distance", "miss_distance_kilometers")]

/-- search.py lines 78..82: Filter.Operators on the numeric fields;
operator.gt / operator.eq / operator.ge, KeyError on any other symbol. -/
def OperatorsQ (op : String) : Except Err (PyFloat → PyFloat → Bool) :=
  match op with
  | ">" => Except.ok (fun a b => pfLt b a)
  | "=" => Except.ok (fun a b => pfEq a b)
  | ">=" => Except.ok (fun a b => pfLe b a)
  | _ => Except.error Err.keyError

/-- Python treats booleans as the integers 0 and 1 under the same operator
table, so the boolean instance of Filter.Operators compares those numerals. -/
def OperatorsB (op : String) : Except Err (Bool → Bool → Bool) :=
  match op with
  | ">" => Except.ok (fun a b => decide (b.toNat < a.toNat))
  | "=" => Except.ok (fun a b => decide (a.toNat = b.toNat))
  | ">=" => Except.ok (fun a b => decide (b.toNat ≤ a.toNat))
  | _ => Except.error Err.keyError

/-- search.py lines 84..94: a Filter value (the source class name Filter
collides with the Filter of the ambient mathematics library, hence the S
prefix): field name, target class, operator symbol, literal value. -/
structure SFilter where
  field : String
  object : ObjKind
  operation : String
  value : String
deriving DecidableEq

/-- search.py line 105: the dict with keys "NEO" and "ORB" that
create_filter_options fills. -/
structure FilterBuckets where
  NEO : List SFilter
  ORB : List SFilter
deriving DecidableEq

/-- Python `x[i]`: list subscription, IndexError when out of range. -/
def getIdx (l : List String) (i : Nat) : Except Err String :=
  match l.get? i with
  | some s => Except.ok s
  | none => Except.error Err.indexError

/-- search.py lines 111..119: the body of the create_filter_options loop.
The first branch tests `x[0] in ["diameter", Filter.Options["is_hazardous"]]`
and Filter.Options maps "is_hazardous" to itself, so it compares against
"diameter" and "is_hazardous". The second branch tests
`x[0] == Filter.Options["distance"]`, and that dict VALUE is
"miss_distance_kilometers" — not the filter name "distance". -/
def cfoStep (bk : FilterBuckets) (s : String) : Except Err FilterBuckets := do
  let x := splitStr s ':'
  let x0 := x.headD ""
  let bk1 ←
    if x0 = "diameter" ∨ x0 = "is_hazardous" then do
      let x1 ← getIdx x 1
      let x2 ← getIdx x 2
      Except.ok { bk with NEO := bk.NEO ++ [SFilter.mk x0 ObjKind.NEO x1 x2] }
    else Except.ok bk
  if x0 = "miss_distance_kilometers" then do
    let x1 ← getIdx x 1
    let x2 ← getIdx x 2
    Except.ok { bk1 with ORB := bk1.ORB ++ [SFilter.mk x0 ObjKind.ORB x1 x2] }
  else Except.ok bk1

/-- search.py lines 96..120: create_filter_options; None or the empty list
yields two empty buckets, otherwise the loop above fills them. -/
def create_filter_options (filter_options : Option (List String)) :
    Except Err FilterBuckets :=
  match filter_options with
  | none => Except.ok { NEO := [], ORB := [] }
  | some [] => Except.ok { NEO := [], ORB := [] }
  | some l => l.foldlM cfoStep { NEO := [], ORB := [] }

/-- search.py lines 150..158: one step of the distance loop over all_orbits.
The source creates `unique_orbits = set()` and tests membership in it but
NEVER adds to it, so the first component is threaded yet stays empty; on a
hit the source appends the loop variable `neo`, which after the flattening
loop is the LAST candidate, not the orbit's owner. -/
def distStep (last : NearEarthObject) (f : PyFloat → PyFloat → Bool) (v : PyFloat)
    (st : List String × List OrbitPath × List NearEarthObject) (orbit : OrbitPath) :
    List String × List OrbitPath × List NearEarthObject :=
  let dateName := orbit.close_approach_date ++ "." ++ orbit.neo_name
  if dateName ∈ st.1 then st
  else if f orbit.miss_distance_kilometers v then
    (st.1, st.2.1 ++ [orbit], st.2.2 ++ [last])
  else st

/-- search.py lines 123..159: Filter.apply. The operator table lookup and the
float conversion of the literal sit inside the per-element loops, so an empty
candidate (or orbit) list returns [] before either can fail. A field other
than the three handled ones falls off the end: the source returns None and
every later use of that None raises TypeError, which the embedding surfaces
as that TypeError at once. -/
def SFilter.apply (filt : SFilter) (results : List NearEarthObject) :
    Except Err (List NearEarthObject) :=
  if filt.field = "diameter" then
    match results with
    | [] => Except.ok []
    | _ => do
      let f ← OperatorsQ filt.operation
      let v ← parseFloatE filt.value
      Except.ok (results.filter (fun neo => f neo.diameter_min_km v))
  else if filt.field = "is_hazardous" then
    let hv := filt.value = "True"
    match results with
    | [] => Except.ok []
    | _ => do
      let f ← OperatorsB filt.operation
      Except.ok (results.filter (fun neo => f neo.is_potentially_hazardous_asteroid hv))
  else if filt.field = "distance" then
    match results.getLast? with
    | none => Except.ok []
    | some last =>
      let allOrbits := results.foldl (fun acc neo => acc ++ neo.orbits) []
      match allOrbits with
      | [] => Except.ok []
      | _ => do
        let f ← OperatorsQ filt.operation
        let v ← parseFloatE filt.value
        let st := allOrbits.foldl (distStep last f v) ([], [], [])
        Except.ok st.2.2
  else Except.error Err.typeError

/-- search.py lines 31..32: the date-search selector, the DateSearch tag
together with its values slot (a single date for equals, the [start, end]
pair for between, where a bound omitted at Query construction is None). -/
inductive DSearch where
  | equals (d : String)
  | between (s e : Option String)
deriving DecidableEq

/-- search.py line 31: Query.Selectors. -/
structure Selectors where
  date_search : DSearch
  number : Nat
  filters : Option (List String)
  return_object : ObjKind
deriving DecidableEq

/-- search.py lines 35..45: the raw keyword arguments stored on Query;
`number` and `return_object` are always supplied, the rest default to None. -/
structure QueryKwargs where
  number : Nat
  date : Option String
  start_date : Option String
  end_date : Option String
  filter : Option (List String)
  return_object : String
deriving DecidableEq

/-- search.py line 33: Query.ReturnObjects, name to class;
KeyError on an unknown shape name. -/
def ReturnObjects (s : String) : Except Err ObjKind :=
  if s = "NEO" then Except.ok ObjKind.NEO
  else if s = "Path" then Except.ok ObjKind.ORB
  else Except.error Err.keyError

/-- search.py lines 47..63: build_query. `if (self.date)` is Python
truthiness, so an empty-string date also selects the between branch. -/
def build_query (q : QueryKwargs) : Except Err Selectors := do
  let ds :=
    match q.date with
    | some d => if d = "" then DSearch.between q.start_date q.end_date else DSearch.equals d
    | none => DSearch.between q.start_date q.end_date
  let ro ← ReturnObjects q.return_object
  Except.ok { date_search := ds, number := q.number, filters := q.filter, return_object := ro }

/-- search.py line 232: build the buckets only when query.filters is not None. -/
def cfoOpt (fo : Option (List String)) : Except Err (Option FilterBuckets) :=
  match fo with
  | none => Except.ok none
  | some l => Except.map some (create_filter_options (some l))

/-- search.py lines 237..241 and 248..252: fold each bucket's filters over the
candidate list, NEO filters first, then ORB filters; skipped when the buckets
were never built. -/
def applyAll (ob : Option FilterBuckets) (r : List NearEarthObject) :
    Except Err (List NearEarthObject) :=
  match ob with
  | none => Except.ok r
  | some fb => do
    let r1 ← fb.NEO.foldlM (fun acc filt => SFilter.apply filt acc) r
    fb.ORB.foldlM (fun acc filt => SFilter.apply filt acc) r1

/-- search.py lines 219..254: get_objects. Note that query.return_object is
never consulted: both branches return the sliced NearEarthObject list. -/
def get_objects (db : NEODatabase) (query : Selectors) :
    Except Err (List NearEarthObject) := do
  let filters ← cfoOpt query.filters
  match query.date_search with
  | DSearch.equals d => do
    let results ← equals_search db d
    let results2 ← applyAll filters results
    Except.ok (results2.take query.number)
  | DSearch.between s e => do
    let results ← between_search db s e
    let results2 ← applyAll filters results
    Except.ok (results2.take query.number)

/-- The candidate pipeline of get_objects before the final slice: date search
then filter application. Observation function used by the truncation theorem. -/
def candidate_results (db : NEODatabase) (query : Selectors) :
    Except Err (List NearEarthObject) := do
  let filters ← cfoOpt query.filters
  match query.date_search with
  | DSearch.equals d => do
    let results ← equals_search db d
    applyAll filters results
  | DSearch.between s e => do
    let results ← between_search db s e
    applyAll filters results

/-- Build a row with the seven fields the loader reads, in csv column order. -/
def mkRow (nid nm diam haz dist date full : String) : Row :=
  [("neo_reference_id", nid), ("name", nm),
   ("estimated_diameter_min_kilometers", diam),
   ("is_potentially_hazardous_asteroid", haz),
   ("miss_distance_kilometers", dist),
   ("close_approach_date", date), ("close_approach_date_full", full)]

/-- Subject A of the end-to-end scenario: diameter 0.5, not hazardous, one
approach on 2015-01-01 at distance 10000. -/
def rowA : Row := mkRow "1" "A" "0.5" "False" "10000" "2015-01-01" "2015-01-01 08:00"

/-- Subject B of the end-to-end scenario: diameter 2.0, hazardous, one
approach on 2015-01-01 at distance 90000. -/
def rowB : Row := mkRow "2" "B" "2.0" "True" "90000" "2015-01-01" "2015-01-01 09:00"

/-- The orbit loaded from row A. -/
def orbA : OrbitPath := { neo_name := "A", miss_distance_kilometers := { num := 10000, exp := 0 }, close_approach_date := "2015-01-01 08:00" }

/-- The instance loaded from row A ("0.5" parses to 5 / 10). -/
def neoA : NearEarthObject := { id := "1", name := "A", diameter_min_km := { num := 5, exp := 1 }, is_potentially_hazardous_asteroid := false, orbits := [orbA] }

/-- The orbit loaded from row B. -/
def orbB : OrbitPath := { neo_name := "B", miss_distance_kilometers := { num := 90000, exp := 0 }, close_approach_date := "2015-01-01 09:00" }

/-- The instance loaded from row B ("2.0" parses to 20 / 10). -/
def neoB : NearEarthObject := { id := "2", name := "B", diameter_min_km := { num := 20, exp := 1 }, is_potentially_hazardous_asteroid := true, orbits := [orbB] }

/-- Subject C: one approach at distance 90000 (satisfies distance >= 50000). -/
def rowC : Row := mkRow "3" "C" "1.0" "False" "90000" "2015-02-20" "2015-02-20 07:00"

/-- Subject D: one approach at distance 10000 (fails distance >= 50000). -/
def rowD : Row := mkRow "4" "D" "1.0" "False" "10000" "2015-02-20" "2015-02-20 08:00"

/-- The orbit loaded from row C. -/
def orbC : OrbitPath := { neo_name := "C", miss_distance_kilometers := { num := 90000, exp := 0 }, close_approach_date := "2015-02-20 07:00" }

/-- The instance loaded from row C ("1.0" parses to 10 / 10). -/
def neoC : NearEarthObject := { id := "3", name := "C", diameter_min_km := { num := 10, exp := 1 }, is_potentially_hazardous_asteroid := false, orbits := [orbC] }

/-- The orbit loaded from row D. -/
def orbD : OrbitPath := { neo_name := "D", miss_distance_kilometers := { num := 10000, exp := 0 }, close_approach_date := "2015-02-20 08:00" }

/-- The instance loaded from row D. -/
def neoD : NearEarthObject := { id := "4", name := "D", diameter_min_km := { num := 10, exp := 1 }, is_potentially_hazardous_asteroid := false, orbits := [orbD] }

/-- Two rows that reference the same subject name X on two coarse dates. -/
def rowX1 : Row := mkRow "5" "X" "0.5" "False" "10000" "2015-01-01" "2015-01-01 10:00"

/-- Second row for the same subject name X. -/
def rowX2 : Row := mkRow "5" "X" "0.5" "False" "20000" "2015-01-02" "2015-01-02 11:00"

/-- The orbit loaded from rowX1. -/
def orbX1 : OrbitPath := { neo_name := "X", miss_distance_kilometers := { num := 10000, exp := 0 }, close_approach_date := "2015-01-01 10:00" }

/-- The instance loaded from rowX1. -/
def neoX1 : NearEarthObject := { id := "5", name := "X", diameter_min_km := { num := 5, exp := 1 }, is_potentially_hazardous_asteroid := false, orbits := [orbX1] }

/-- The orbit loaded from rowX2. -/
def orbX2 : OrbitPath := { neo_name := "X", miss_distance_kilometers := { num := 20000, exp := 0 }, close_approach_date := "2015-01-02 11:00" }

/-- The instance loaded from rowX2. -/
def neoX2 : NearEarthObject := { id := "5", name := "X", diameter_min_km := { num := 5, exp := 1 }, is_potentially_hazardous_asteroid := false, orbits := [orbX2] }

/-- The store that loading rowX1 and rowX2 produces: name X is stored as two
distinct instances under two date keys, one orbit each. -/
def dbX : NEODatabase :=
  { NearEarthObjects := [("2015-01-01", [neoX1]), ("2015-01-02", [neoX2])],
    OrbitPaths := [orbX1, orbX2] }

/-- A row shaped as the specification describes: it carries the key "id"
(together with every other required key), but not "neo_reference_id". -/
def rowSpecId : Row :=
  [("id", "9"), ("name", "Y"),
   ("estimated_diameter_min_kilometers", "0.5"),
   ("is_potentially_hazardous_asteroid", "True"),
   ("miss_distance_kilometers", "10000"),
   ("close_approach_date", "2015-01-01"), ("close_approach_date_full", "2015-01-01 10:00")]

/-- The empty record store (a freshly initialised database). -/
def emptyDb : NEODatabase := { NearEarthObjects := [], OrbitPaths := [] }

/-- Five distinct subjects recorded on one date, for the truncation scenario. -/
def n5 (i : Nat) : NearEarthObject :=
  { id := toString i, name := "N" ++ toString i, diameter_min_km := { num := 1, exp := 0 },
    is_potentially_hazardous_asteroid := false,
    orbits := [{ neo_name := "N" ++ toString i, miss_distance_kilometers := { num := 1000, exp := 0 },
                 close_approach_date := "2015-03-05 0" ++ toString i ++ ":00" }] }

/-- A store with five subjects under one date key. -/
def db5 : NEODatabase :=
  { NearEarthObjects := [("2015-03-05", [n5 1, n5 2, n5 3, n5 4, n5 5])],
    OrbitPaths := [] }

/-- The unfiltered query over db5 asking for the first two results. -/
def q5 : Selectors :=
  { date_search := DSearch.equals "2015-03-05", number := 2, filters := none,
    return_object := ObjKind.NEO }

/-- True exactly on the ok constructor (Python: the call did not raise). -/
def exOk {α : Type} : Except Err α → Bool
  | Except.ok _ => true
  | Except.error _ => false

/-- The condition under which load_data accepts a row: the seven keys the
loader reads are present and the two numeric fields parse as floats. -/
def rowOkB (r : Row) : Bool :=
  (listLookup r "close_approach_date").isSome &&
  (listLookup r "name").isSome &&
  (listLookup r "neo_reference_id").isSome &&
  (match listLookup r "estimated_diameter_min_kilometers" with
   | some v => (parseFloat v).isSome
   | none => false) &&
  (listLookup r "is_potentially_hazardous_asteroid").isSome &&
  (match listLookup r "miss_distance_kilometers" with
   | some v => (parseFloat v).isSome
   | none => false) &&
  (listLookup r "close_approach_date_full").isSome

/-- Binding an error propagates the error. -/
theorem errBind {α β : Type} (e : Err) (f : α → Except Err β) :
    (Except.error e >>= f) = (Except.error e : Except Err β) := rfl

/-- Binding an ok value applies the continuation. -/
theorem okBind {α β : Type} (a : α) (f : α → Except Err β) :
    (Except.ok a >>= f) = f a := rfl

/-- A bound computation yields ok iff both stages do. -/
theorem bind_ok_iff {α β : Type} (x : Except Err α) (f : α → Except Err β) (b : β) :
    (x >>= f) = Except.ok b ↔ ∃ a, x = Except.ok a ∧ f a = Except.ok b := by
  cases x with
  | error e => simp [errBind]
  | ok a => simp [okBind]

/-- A successful loadRow extends the date mapping by dictAppend with one fresh
instance owning exactly one orbit. -/
theorem loadRow_ok_shape (db db2 : NEODatabase) (r : Row)
    (h : loadRow db r = Except.ok db2) :
    ∃ k neo, neo.orbits.length = 1 ∧
      db2.NearEarthObjects = dictAppend db.NearEarthObjects k neo := by
  unfold loadRow at h
  simp only [bind_ok_iff, Except.ok.injEq] at h
  obtain ⟨od, _h1, nn0, _h2, nid, _h3, nnm, _h4, ds, _h5, dv, _h6, hz, _h7,
    on2, _h8, dss, _h9, dvv, _h10, odt, _h11, heq⟩ := h
  subst heq
  exact ⟨od,
    { id := nid, name := nnm, diameter_min_km := dv,
      is_potentially_hazardous_asteroid := (hz = "True"),
      orbits := [{ neo_name := on2, miss_distance_kilometers := dvv, close_approach_date := odt }] },
    rfl, rfl⟩

/-- Membership in the flattened buckets after a dictAppend comes from the old
buckets or is the appended instance. -/
theorem mem_storedAppend (m : List (String × List NearEarthObject)) (k : String)
    (v neo : NearEarthObject)
    (h : neo ∈ (dictAppend m k v).foldr (fun p acc => p.2 ++ acc) []) :
    neo ∈ m.foldr (fun p acc => p.2 ++ acc) [] ∨ neo = v := by
  induction m with
  | nil =>
    simp [dictAppend] at h
    exact Or.inr h
  | cons p rest ih =>
    obtain ⟨k2, l⟩ := p
    by_cases hk : k2 = k
    · simp [dictAppend, hk] at h ⊢
      tauto
    · simp [dictAppend, hk] at h ⊢
      rcases h with h | h
      · tauto
      · rcases ih h with h2 | h2 <;> tauto

/-- The one-orbit-per-stored-instance invariant is preserved by the loading
fold, whatever store it starts from. -/
theorem load_aux (rows : List Row) :
    ∀ db0 db : NEODatabase, List.foldlM loadRow db0 rows = Except.ok db →
      (∀ neo ∈ storedNEOs db0, neo.orbits.length = 1) →
      ∀ neo ∈ storedNEOs db, neo.orbits.length = 1 := by
  induction rows with
  | nil =>
    intro db0 db h hinv
    simp only [List.foldlM_nil] at h
    cases h
    exact hinv
  | cons r rs ih =>
    intro db0 db h hinv
    rw [List.foldlM_cons, bind_ok_iff] at h
    obtain ⟨db1, h1, h2⟩ := h
    refine ih db1 db h2 ?_
    intro neo hneo
    obtain ⟨k, v, hv1, hv2⟩ := loadRow_ok_shape db0 db1 r h1
    rw [storedNEOs, hv2] at hneo
    rcases mem_storedAppend db0.NearEarthObjects k v neo hneo with hmem | hEq
    · exact hinv neo hmem
    · rw [hEq]; exact hv1

/-- loadRow succeeds on a row exactly when the row passes rowOkB. -/
theorem loadRow_isOk (db : NEODatabase) (r : Row) : exOk (loadRow db r) = rowOkB r := by
  simp only [loadRow, rowOkB, rowGet, parseFloatE]
  cases h1 : listLookup r "close_approach_date"
  · simp [exOk, errBind]
  · cases h2 : listLookup r "name"
    · simp [exOk, errBind, okBind]
    · cases h3 : listLookup r "neo_reference_id"
      · simp [exOk, errBind, okBind]
      · cases h4 : listLookup r "estimated_diameter_min_kilometers"
        · simp [exOk, errBind, okBind]
        · rename_i dstr
          cases h5 : parseFloat dstr
          · simp [h5, exOk, errBind, okBind]
          · cases h6 : listLookup r "is_potentially_hazardous_asteroid"
            · simp [h5, h6, exOk, errBind, okBind]
            · cases h7 : listLookup r "miss_distance_kilometers"
              · simp [h5, h7, exOk, errBind, okBind]
              · rename_i mstr
                cases h8 : parseFloat mstr
                · simp [h5, h8, exOk, errBind, okBind]
                · cases h9 : listLookup r "close_approach_date_full"
                  · simp [h5, h8, h9, exOk, errBind, okBind]
                  · simp [h5, h8, h9, exOk, errBind, okBind]

/-- C1: the claim says a subject name appearing in several source rows maps to
one Subject instance that accumulates the events. Loading two rows that share
the name X instead stores two instances for X, each owning exactly one orbit:
the per-name orbit-count list is [1, 1], not [2]. -/
theorem c1_load_creates_fresh_instances :
    Except.map
      (fun db => ((storedNEOs db).filter (fun n => n.name = "X")).map
        (fun n => n.orbits.length))
      (load_data [rowX1, rowX2]) = Except.ok [1, 1] := by decide

/-- C2 counterexample: exact-mode search on a date with no recorded subjects
raises KeyError instead of returning an empty sequence, and range-mode search
raises KeyError on an absent date inside the range instead of skipping it. -/
theorem c2_counterexample_absent_date_raises :
    get_objects emptyDb
      { date_search := DSearch.equals "2015-01-01", number := 10,
        filters := none, return_object := ObjKind.NEO } = Except.error Err.keyError ∧
    get_objects emptyDb
      { date_search := DSearch.between (some "2015-03-01") (some "2015-03-02"),
        number := 10, filters := none, return_object := ObjKind.NEO } =
      Except.error Err.keyError :=
  ⟨by decide, by decide⟩

/-- Looking up every key of a list fails with KeyError whenever some key of
the list is absent from the store, whatever was accumulated so far. -/
theorem mapM_loop_err (m : List (String × List NearEarthObject)) :
    ∀ (keys : List String) (acc : List (List NearEarthObject)),
      (∃ k ∈ keys, listLookup m k = none) →
      List.mapM.loop (fun k => dictGet m k) keys acc =
        Except.error Err.keyError := by
  intro keys
  induction keys with
  | nil =>
    intro acc h
    simp at h
  | cons k ks ih =>
    intro acc h
    simp only [List.mapM.loop]
    cases hk : listLookup m k with
    | none => simp [dictGet, hk, errBind]
    | some l =>
      simp only [dictGet, hk, okBind]
      apply ih
      rcases h with ⟨k2, hmem, hnone⟩
      rcases List.mem_cons.mp hmem with rfl | hmem2
      · rw [hk] at hnone
        cases hnone
      · exact ⟨k2, hmem2, hnone⟩

/-- C2 amended: for every date key with no stored bucket, exact-mode search
fails with KeyError, and range-mode search fails with KeyError whenever ANY
visited date of the enumerated range is absent from the store, rather than
treating absent dates as empty. -/
theorem c2_amended_absent_date_keyerror :
    (∀ (db : NEODatabase) (d : String), listLookup db.NearEarthObjects d = none →
      equals_search db d = Except.error Err.keyError) ∧
    (∀ (db : NEODatabase) (s e : String) (keys : List String) (k : String),
      betweenDatesKeys s e = Except.ok keys →
      k ∈ keys →
      listLookup db.NearEarthObjects k = none →
      between_search db (some s) (some e) = Except.error Err.keyError) := by
  constructor
  · intro db d h
    simp [equals_search, dictGet, h, errBind, okBind]
  · intro db s e keys k h1 hmem hnone
    have hm : List.mapM.loop (fun k2 => dictGet db.NearEarthObjects k2) keys [] =
        Except.error Err.keyError :=
      mapM_loop_err db.NearEarthObjects keys [] ⟨k, hmem, hnone⟩
    simp [between_search, h1, okBind, hm, errBind]

/-- C2 witness: the amended behaviour at concrete inputs: an absent exact
date over the empty store, and a range whose first date IS present (with an
empty bucket) while the second visited date is absent mid-range. -/
theorem c2_witness_absent_date :
    equals_search emptyDb "2020-05-05" = Except.error Err.keyError ∧
    between_search { NearEarthObjects := [("2015-01-30", [])], OrbitPaths := [] }
      (some "2015-01-30") (some "2015-02-02") = Except.error Err.keyError := by
  constructor
  · exact c2_amended_absent_date_keyerror.1 emptyDb "2020-05-05" rfl
  · exact c2_amended_absent_date_keyerror.2
      { NearEarthObjects := [("2015-01-30", [])], OrbitPaths := [] }
      "2015-01-30" "2015-02-02"
      ["2015-01-30", "2015-01-31", "2015-02-01", "2015-02-02"] "2015-01-31"
      (by decide) (by decide) (by decide)

/-- C3: the range enumeration is inclusive, ascending and calendar-correct on
the claim's own example (2015-01-30 .. 2015-02-02), but the exclusive upper
bound is computed as date(year, month, day + 1), so an end date on the last
day of its month (2015-01-31 yields date(2015, 1, 32)) raises ValueError
instead of enumerating the range. -/
theorem c3_between_enumeration_month_end_bug :
    betweenDatesKeys "2015-01-30" "2015-02-02" =
      Except.ok ["2015-01-30", "2015-01-31", "2015-02-01", "2015-02-02"] ∧
    betweenDatesKeys "2015-01-01" "2015-01-31" = Except.error Err.valueError :=
  ⟨by decide, by decide⟩

/-- C4: a filter string of the form distance:op:value creates no filter at
all (create_filter_options compares the field against the Options value
"miss_distance_kilometers", not the key "distance"), so the query returns
both subjects unfiltered; and the distance branch of Filter.apply, reachable
only by constructing the filter directly, keeps the LAST candidate once per
qualifying event (its dedup set is never populated), returning [neoD] even
though only neoC owns a qualifying event. -/
theorem c4_distance_filter_dropped_and_broken :
    create_filter_options (some ["distance:>=:50000"]) =
      Except.ok { NEO := [], ORB := [] } ∧
    (do
      let db ← load_data [rowC, rowD]
      get_objects db
        { date_search := DSearch.equals "2015-02-20", number := 10,
          filters := some ["distance:>=:50000"], return_object := ObjKind.NEO }) =
      Except.ok [neoC, neoD] ∧
    SFilter.apply (SFilter.mk "distance" ObjKind.ORB ">=" "50000") [neoC, neoD] =
      Except.ok [neoD] :=
  ⟨by decide, by decide, by decide⟩

/-- C5: get_objects never consults the plan's return_object: changing the
requested output shape never changes the result, and a query that requests
the Path (event) shape still receives the Subject instances [neoA, neoB]
rather than flattened OrbitPath events. -/
theorem c5_return_shape_ignored :
    (∀ (db : NEODatabase) (q : Selectors) (ro : ObjKind),
      get_objects db { q with return_object := ro } = get_objects db q) ∧
    (do
      let db ← load_data [rowA, rowB]
      let sel ← build_query
        { number := 10, date := some "2015-01-01", start_date := none,
          end_date := none, filter := none, return_object := "Path" }
      get_objects db sel) = Except.ok [neoA, neoB] := by
  constructor
  · intro db q ro
    cases q
    rfl
  · decide

/-- C6: on the dataset with subjects A (diameter 0.5, not hazardous, one
event on 2015-01-01 at distance 10000) and B (diameter 2.0, hazardous, one
event on 2015-01-01 at distance 90000), the query with date 2015-01-01,
number 10, filter ["diameter:>:1.0"] and return_object "NEO" returns exactly
[neoB]. -/
theorem c6_end_to_end_diameter_query :
    (do
      let db ← load_data [rowA, rowB]
      let sel ← build_query
        { number := 10, date := some "2015-01-01", start_date := none,
          end_date := none, filter := some ["diameter:>:1.0"],
          return_object := "NEO" }
      get_objects db sel) = Except.ok [neoB] := by decide

/-- C7 counterexample: a row that carries the key "id" named by the claim
(with every other claimed key present and parseable) fails to load, because
the loader reads "neo_reference_id", not "id". -/
theorem c7_counterexample_id_key :
    load_data [rowSpecId] = Except.error Err.keyError := by decide

/-- C7 amended: load succeeds exactly when every row carries the keys
neo_reference_id, name, estimated_diameter_min_kilometers,
is_potentially_hazardous_asteroid, miss_distance_kilometers,
close_approach_date and close_approach_date_full, with the two numeric
fields parseable as floats; otherwise it fails (with the builtin KeyError or
ValueError — the source defines no DataLoadError). -/
theorem c7_amended_load_success_condition (rows : List Row) :
    exOk (load_data rows) = rows.all rowOkB := by
  unfold load_data
  suffices h : ∀ db0 : NEODatabase,
      exOk (rows.foldlM loadRow db0) = rows.all rowOkB from h _
  induction rows with
  | nil =>
    intro db0
    simp [List.foldlM_nil, exOk, Pure.pure, Except.pure]
  | cons r rs ih =>
    intro db0
    rw [List.foldlM_cons]
    cases h : loadRow db0 r with
    | error e =>
      have hr : rowOkB r = false := by rw [← loadRow_isOk db0 r, h]; rfl
      simp [errBind, exOk, List.all_cons, hr]
    | ok db1 =>
      have hr : rowOkB r = true := by rw [← loadRow_isOk db0 r, h]; rfl
      simp [okBind, List.all_cons, hr, ih db1]

/-- C7 witness for the amended condition: a well-formed row loads (both sides
true) and the spec-shaped row does not (both sides false). -/
theorem c7_witness_load_success :
    exOk (load_data [rowA]) = [rowA].all rowOkB ∧
    exOk (load_data [rowSpecId]) = [rowSpecId].all rowOkB :=
  ⟨c7_amended_load_success_condition [rowA],
   c7_amended_load_success_condition [rowSpecId]⟩

/-- C8 counterexample: a range query whose end date precedes its start date
returns the empty list instead of failing (the source has no InvalidDateRange
error at all). -/
theorem c8_counterexample_reversed_range_returns_empty :
    get_objects emptyDb
      { date_search := DSearch.between (some "2015-02-10") (some "2015-02-01"),
        number := 10, filters := none, return_object := ObjKind.NEO } =
      Except.ok [] := by decide

/-- C8 amended: whenever both bounds parse (the end bound as
date(y, m, day + 1)) and the end bound does not exceed the start, the
enumerated range is empty and between_search returns the empty list; no
InvalidDateRange failure exists. -/
theorem c8_amended_reversed_range_empty (db : NEODatabase) (s e : String)
    (sd ed : PyDate) (h1 : parseStartDate s = Except.ok sd)
    (h2 : parseEndBound e = Except.ok ed) (h3 : toOrdinal ed ≤ toOrdinal sd) :
    between_search db (some s) (some e) = Except.ok [] := by
  have hd : ((toOrdinal ed : Int) - (toOrdinal sd : Int)).toNat = 0 := by omega
  have hd2 : toOrdinal ed - toOrdinal sd = 0 := Nat.sub_eq_zero_of_le h3
  simp [between_search, betweenDatesKeys, h1, h2, okBind, errBind, daterange,
    hd, hd2, List.range_zero, List.mapM.loop, concatAll, dedupByName, dedupGo,
    Pure.pure, Except.pure]

/-- C8 witness: the amended behaviour at the concrete reversed range
2015-02-10 .. 2015-02-01 over the empty store. -/
theorem c8_witness_reversed_range :
    between_search emptyDb (some "2015-02-10") (some "2015-02-01") =
      Except.ok [] :=
  c8_amended_reversed_range_empty emptyDb "2015-02-10" "2015-02-01"
    { y := 2015, m := 2, d := 10 } { y := 2015, m := 2, d := 2 }
    (by decide) (by decide) (by decide)

/-- A pipeline of two fallible stages followed by a pure final slice equals
mapping the slice over the pipeline without it. -/
theorem map_take_last {A B C : Type} (x : Except Err A) (y : A → Except Err B)
    (z : A → B → Except Err (List C)) (n : Nat) :
    (do
      let a ← x
      let b ← y a
      let r ← z a b
      Except.ok (r.take n)) =
    Except.map (fun r => r.take n) (do
      let a ← x
      let b ← y a
      z a b) := by
  cases hx : x with
  | error e => simp [hx, errBind, Except.map]
  | ok a =>
    cases hy : y a with
    | error e => simp [hx, hy, errBind, okBind, Except.map]
    | ok b =>
      cases hz : z a b with
      | error e => simp [hx, hy, hz, errBind, okBind, Except.map]
      | ok r => simp [hx, hy, hz, okBind, Except.map]

/-- C9: get_objects is the candidate pipeline (date search, then filters)
followed by a plain positional slice: its result is always List.take of the
pipeline's result, so any returned list has length at most the requested
number and consists of exactly the first elements of the pipeline's
deterministic order. -/
theorem c9_truncate_by_slice (db : NEODatabase) (q : Selectors) :
    get_objects db q =
      Except.map (fun r => r.take q.number) (candidate_results db q) ∧
    ∀ l, get_objects db q = Except.ok l → l.length ≤ q.number := by
  have hmain : get_objects db q =
      Except.map (fun r => r.take q.number) (candidate_results db q) := by
    obtain ⟨ds, n, fo, ro⟩ := q
    cases ds with
    | equals d =>
      exact map_take_last (cfoOpt fo) (fun f => equals_search db d)
        (fun f r => applyAll f r) n
    | between s e =>
      exact map_take_last (cfoOpt fo) (fun f => between_search db s e)
        (fun f r => applyAll f r) n
  refine ⟨hmain, ?_⟩
  intro l hl
  rw [hmain] at hl
  cases hc : candidate_results db q with
  | error e => rw [hc] at hl; simp [Except.map] at hl
  | ok r =>
    rw [hc] at hl
    simp only [Except.map, Except.ok.injEq] at hl
    rw [← hl, List.length_take]
    exact Nat.min_le_left _ _

/-- C9 witness: number = 2 against the five-subject store returns exactly the
first two subjects, and that list satisfies the length bound of the theorem. -/
theorem c9_witness_truncate :
    get_objects db5 q5 = Except.ok [n5 1, n5 2] ∧
    [n5 1, n5 2].length ≤ q5.number := by
  constructor
  · decide
  · exact (c9_truncate_by_slice db5 q5).2 [n5 1, n5 2] (by decide)

/-- C10: after a successful load, every NearEarthObject instance stored in
the date-keyed mapping owns exactly one orbit: each source row constructs a
fresh instance with an empty orbit list and appends exactly the one event of
that row, so no stored instance aggregates events of other rows. -/
theorem c10_one_orbit_per_stored_instance (rows : List Row) (db : NEODatabase)
    (h : load_data rows = Except.ok db) :
    ∀ neo ∈ storedNEOs db, neo.orbits.length = 1 := by
  unfold load_data at h
  refine load_aux rows _ db h ?_
  intro neo hneo
  simp [storedNEOs] at hneo

/-- C10 witness: the instance stored for rowX1 in the concrete two-row load
owns exactly one orbit. -/
theorem c10_witness_one_orbit : neoX1.orbits.length = 1 :=
  c10_one_orbit_per_stored_instance [rowX1, rowX2] dbX (by decide) neoX1 (by decide)
